import Mathlib

/-!
Verification of the inventory store in `updated_inventory_system.py`.

The Python class `Inventory` keeps an insertion-ordered mapping
`stock_data : dict[str, int]` and offers `add_item`, `remove_item`,
`get_qty`, `load_data`, `save_data`, `print_data`, `check_low_items`.

Shallow embedding choices:
* `stock_data` is a `List (String × Int)` in insertion order, with Python
  dict semantics made explicit: assignment to an existing key keeps its
  position, assignment to a new key appends at the end, deletion filters.
* Dynamically typed arguments of `add_item` / `remove_item` are `PyVal`
  (a string, an integer, or `None`), so the `isinstance` validation
  boundary is expressible.
* `stderr` output (the error channel) is the list of messages a call
  prints, returned alongside the new state.
* The file system is a map from path to `Option FileContent`, where a
  present file is either a decodable JSON object (a finite string-to-int
  mapping, as `json.dump` writes and `json.load` reads back) or
  undecodable content; `open`-for-write failure is an explicit boolean
  input of `save_data` with the exception text as a string.
-/

namespace InventorySystem

/-- A single-quote character, used when assembling the Python `f`-string
messages without apostrophe literals. -/
def sqc : Char := Char.ofNat 39

/-- Single quote as a string. -/
def sq : String := String.singleton sqc

/-- Double quote as a string. -/
def dq : String := String.singleton (Char.ofNat 34)

/-- A dynamically typed Python value as far as the validation boundary of
`add_item` / `remove_item` can distinguish: a `str`, an `int`, or some
other object (represented by `None`). -/
inductive PyVal where
  | str (s : String)
  | int (n : Int)
  | none
deriving DecidableEq, Repr

/-- `str(v)`, as an `f`-string interpolation renders a `PyVal`. -/
def PyVal.pyStr : PyVal → String
  | .str s => s
  | .int n => toString n
  | .none => "None"

/-- `isinstance(item, str) and item` — the item validation of both
`add_item` and `remove_item` (non-empty string). -/
def valid_item : PyVal → Bool
  | .str s => !(s == "")
  | _ => false

/-- `isinstance(qty, int) and qty >= 0` — the quantity validation of both
`add_item` and `remove_item` (non-negative integer). -/
def valid_qty : PyVal → Bool
  | .int n => decide (0 ≤ n)
  | _ => false

/-- `self.stock_data`: a Python dict in insertion order. -/
structure Inventory where
  stock_data : List (String × Int)
deriving DecidableEq, Repr

/-- `item in d` for a Python dict. -/
def dictHas (d : List (String × Int)) (k : String) : Bool :=
  d.any (fun p => p.1 == k)

/-- `d.get(k, 0)` (also `d[k]` when the key is present). -/
def dictGet (d : List (String × Int)) (k : String) : Int :=
  match d.find? (fun p => p.1 == k) with
  | some p => p.2
  | Option.none => 0

/-- `d[k] = v`: updating an existing key keeps its position, a new key is
appended at the end (Python 3.7+ dict semantics). -/
def dictSet (d : List (String × Int)) (k : String) (v : Int) :
    List (String × Int) :=
  if dictHas d k then d.map (fun p => if p.1 == k then (k, v) else p)
  else d ++ [(k, v)]

/-- `del d[k]`. -/
def dictDel (d : List (String × Int)) (k : String) : List (String × Int) :=
  d.filter (fun p => !(p.1 == k))

/-- `f"Error: Item name '{item}' is not a valid string."` -/
def invalid_item_msg (item : PyVal) : String :=
  "Error: Item name " ++ (sq ++ item.pyStr ++ sq ++ " is not a valid string.")

/-- `f"Error: Quantity '{qty}' is not a valid non-negative integer."` -/
def invalid_qty_msg (qty : PyVal) : String :=
  "Error: Quantity "
    ++ (sq ++ qty.pyStr ++ sq ++ " is not a valid non-negative integer.")

/-- Python `repr` of a string, for the arguments arising here: double quotes
when the string contains a single quote but no double quote, otherwise
single quotes with inner single quotes escaped. (`str(KeyError(a))` prints
`repr(a)`; other escape cases do not occur in the messages modelled.) -/
def py_repr_str (s : String) : String :=
  if s.data.contains sqc && !(s.data.contains (Char.ofNat 34)) then
    dq ++ s ++ dq
  else sq ++ s ++ sq

/-- `f"Error removing item: {e}"` where `e` is the caught
`KeyError(f"Item '{item}' not in stock. Cannot remove.")`. -/
def remove_not_in_stock_msg (item : String) : String :=
  "Error removing item: "
    ++ py_repr_str ("Item " ++ sq ++ item ++ sq ++ " not in stock. Cannot remove.")

/-- Result of `add_item`: the new inventory, the stderr messages printed,
and the log list after the call. -/
structure AddResult where
  inv : Inventory
  stderr : List String
  logs : List String
deriving DecidableEq, Repr

/-- Result of `remove_item`: the new inventory and the stderr messages. -/
structure RmResult where
  inv : Inventory
  stderr : List String
deriving DecidableEq, Repr

/-- `Inventory.add_item(item, qty, logs)`. `now` is the value of
`datetime.now()` rendered as text (an input of the model). A `logs=None`
call corresponds to passing `[]` and discarding the returned list. -/
def add_item (s : Inventory) (item qty : PyVal) (logs : List String)
    (now : String) : AddResult :=
  if valid_item item = false then ⟨s, [invalid_item_msg item], logs⟩
  else if valid_qty qty = false then ⟨s, [invalid_qty_msg qty], logs⟩
  else
    match item, qty with
    | .str it, .int q =>
        ⟨⟨dictSet s.stock_data it (dictGet s.stock_data it + q)⟩, [],
          logs ++ [now ++ ": Added " ++ toString q ++ " of " ++ it]⟩
    | _, _ => ⟨s, [], logs⟩

/-- `Inventory.remove_item(item, qty)`. -/
def remove_item (s : Inventory) (item qty : PyVal) : RmResult :=
  if valid_item item = false then ⟨s, [invalid_item_msg item]⟩
  else if valid_qty qty = false then ⟨s, [invalid_qty_msg qty]⟩
  else
    match item, qty with
    | .str it, .int q =>
        if dictHas s.stock_data it = false then
          ⟨s, [remove_not_in_stock_msg it]⟩
        else
          let d1 := dictSet s.stock_data it (dictGet s.stock_data it - q)
          if dictGet d1 it ≤ 0 then ⟨⟨dictDel d1 it⟩, []⟩ else ⟨⟨d1⟩, []⟩
    | _, _ => ⟨s, []⟩

/-- `Inventory.get_qty(item)`: `self.stock_data.get(item, 0)`. -/
def get_qty (s : Inventory) (item : String) : Int :=
  dictGet s.stock_data item

/-- What a stored file decodes to: a JSON object of string keys and integer
values (what `json.dump` of `stock_data` writes and `json.load` reads
back), or content that raises `json.JSONDecodeError`. -/
inductive FileContent where
  | valid (m : List (String × Int))
  | invalid
deriving DecidableEq, Repr

/-- The file system: path ↦ file content, `Option.none` for a missing file
(`open` for reading raises `FileNotFoundError`). -/
def FS : Type := String → Option FileContent

/-- Writing a file. -/
def fsWrite (fs : FS) (file : String) (c : FileContent) : FS :=
  fun p => if p = file then some c else fs p

/-- `f"Warning: File '{file}' not found. Starting with empty inventory."` -/
def file_not_found_msg (file : String) : String :=
  "Warning: "
    ++ ("File " ++ sq ++ file ++ sq ++ " not found. Starting with empty inventory.")

/-- `f"Error: Could not decode JSON from '{file}'. Starting with empty inventory."` -/
def decode_error_msg (file : String) : String :=
  "Error: "
    ++ ("Could not decode JSON from " ++ sq ++ file ++ sq
        ++ ". Starting with empty inventory.")

/-- `Inventory.load_data(file)`: replaces `stock_data` with the decoded
JSON object; on `FileNotFoundError` warns and resets to `{}`; on
`JSONDecodeError` reports an error and resets to `{}`. Returns the new
inventory and the stderr messages. -/
def load_data (fs : FS) (s : Inventory) (file : String) :
    Inventory × List String :=
  match fs file with
  | some (.valid m) => (⟨m⟩, [])
  | some .invalid => (⟨[]⟩, [decode_error_msg file])
  | Option.none => (⟨[]⟩, [file_not_found_msg file])

/-- `f"Error saving data to '{file}': {e}"` for a caught `IOError` whose
`str()` is `err`. -/
def save_error_msg (file : String) (err : String) : String :=
  "Error saving data to " ++ (sq ++ file ++ sq ++ ": " ++ err)

/-- Result of `save_data`: the file system after the call, the inventory
(unchanged by the source), and the stderr messages. -/
structure SaveResult where
  fs : FS
  inv : Inventory
  stderr : List String

/-- `Inventory.save_data(file)`: dumps `stock_data` as JSON to `file`.
`ioOk` is whether the write succeeds; on an `IOError` with text `err` the
exception is caught and reported. -/
def save_data (fs : FS) (s : Inventory) (file : String) (ioOk : Bool)
    (err : String) : SaveResult :=
  if ioOk then ⟨fsWrite fs file (.valid s.stock_data), s, []⟩
  else ⟨fs, s, [save_error_msg file err]⟩

/-- `Inventory.print_data()`: the lines printed to stdout. -/
def print_data (s : Inventory) : List String :=
  ["\n--- Items Report ---"]
    ++ (if s.stock_data.isEmpty then ["Inventory is empty."]
        else s.stock_data.map (fun p => p.1 ++ " -> " ++ toString p.2))
    ++ ["--------------------\n"]

/-- `Inventory.check_low_items(threshold)`: the loop appending every item
whose quantity is strictly below the threshold, in mapping order. -/
def check_low_items (s : Inventory) (threshold : Int) : List String :=
  s.stock_data.foldl
    (fun low_stock_items p =>
      if p.2 < threshold then low_stock_items ++ [p.1] else low_stock_items)
    []

/-- The spec's data-model invariant: every key present in the mapping has a
strictly positive value. -/
def Inv (s : Inventory) : Prop :=
  ∀ p ∈ s.stock_data, 0 < p.2

instance (s : Inventory) : Decidable (Inv s) := by
  unfold Inv; infer_instance

/-! ### Dictionary lemmas -/

theorem dictHas_eq_isSome_find? (d : List (String × Int)) (k : String) :
    dictHas d k = (d.find? (fun p => p.1 == k)).isSome := by
  induction d with
  | nil => rfl
  | cons a d ih =>
    cases ha : (a.1 == k) with
    | true => simp [dictHas, List.find?, ha]
    | false => simpa [dictHas, List.find?, ha] using ih

theorem find?_map_set (d : List (String × Int)) (k : String) (v : Int)
    (h : dictHas d k = true) :
    (d.map (fun p => if p.1 == k then (k, v) else p)).find?
        (fun p => p.1 == k) = some (k, v) := by
  induction d with
  | nil => simp [dictHas] at h
  | cons a d ih =>
    cases ha : (a.1 == k) with
    | true => simp [List.find?, ha]
    | false =>
      have h' : dictHas d k = true := by
        simpa [dictHas, ha] using h
      simpa [List.find?, ha] using ih h'

theorem find?_append_new (d : List (String × Int)) (k : String) (v : Int)
    (h : dictHas d k = false) :
    (d ++ [(k, v)]).find? (fun p => p.1 == k) = some (k, v) := by
  induction d with
  | nil => simp [List.find?]
  | cons a d ih =>
    have ha : (a.1 == k) = false := by
      cases ha : (a.1 == k) with
      | true => simp [dictHas, ha] at h
      | false => rfl
    have h' : dictHas d k = false := by
      simpa [dictHas, ha] using h
    simpa [List.find?, ha] using ih h'

theorem dictGet_dictSet_self (d : List (String × Int)) (k : String) (v : Int) :
    dictGet (dictSet d k v) k = v := by
  unfold dictSet
  cases h : dictHas d k with
  | true =>
    rw [if_pos rfl]
    unfold dictGet
    rw [find?_map_set d k v h]
  | false =>
    rw [if_neg Bool.false_ne_true]
    unfold dictGet
    rw [find?_append_new d k v h]

theorem dictHas_dictSet_self (d : List (String × Int)) (k : String) (v : Int) :
    dictHas (dictSet d k v) k = true := by
  rw [dictHas_eq_isSome_find?]
  unfold dictSet
  cases h : dictHas d k with
  | true => rw [if_pos rfl, find?_map_set d k v h]; rfl
  | false => rw [if_neg Bool.false_ne_true, find?_append_new d k v h]; rfl

theorem mem_dictSet (d : List (String × Int)) (k : String) (v : Int)
    (p : String × Int) (hp : p ∈ dictSet d k v) : p = (k, v) ∨ p ∈ d := by
  unfold dictSet at hp
  cases h : dictHas d k with
  | true =>
    rw [h, if_pos rfl] at hp
    obtain ⟨q, hq, hfq⟩ := List.mem_map.mp hp
    by_cases hqk : (q.1 == k) = true
    · left; rw [← hfq]; simp [hqk]
    · right; rw [← hfq]; simpa [hqk] using hq
  | false =>
    rw [h] at hp
    simp only [Bool.false_eq_true, if_false] at hp
    rcases List.mem_append.mp hp with h1 | h2
    · right; exact h1
    · left; simpa using h2

theorem dictGet_nonneg_of_pos (d : List (String × Int)) (k : String)
    (h : ∀ p ∈ d, 0 < p.2) : 0 ≤ dictGet d k := by
  unfold dictGet
  cases hf : d.find? (fun p => p.1 == k) with
  | none => exact le_refl 0
  | some p => exact le_of_lt (h p (List.mem_of_find?_eq_some hf))

theorem dictGet_dictDel_self (d : List (String × Int)) (k : String) :
    dictGet (dictDel d k) k = 0 := by
  unfold dictGet dictDel
  have : (d.filter (fun p => !(p.1 == k))).find? (fun p => p.1 == k)
      = Option.none := by
    rw [List.find?_eq_none]
    intro p hp
    have := (List.mem_filter.mp hp).2
    simpa using this
  rw [this]

theorem mem_dictDel (d : List (String × Int)) (k : String) (p : String × Int)
    (hp : p ∈ dictDel d k) : p ∈ d ∧ p.1 ≠ k := by
  have h := List.mem_filter.mp hp
  refine ⟨h.1, ?_⟩
  simpa using h.2

theorem dictGet_pos_of_has (d : List (String × Int)) (k : String)
    (h : ∀ p ∈ d, 0 < p.2) (hh : dictHas d k = true) : 0 < dictGet d k := by
  rw [dictHas_eq_isSome_find?] at hh
  unfold dictGet
  cases hf : d.find? (fun p => p.1 == k) with
  | none => rw [hf] at hh; simp at hh
  | some p => exact h p (List.mem_of_find?_eq_some hf)

/-! ### Reduction lemmas for the operations on valid inputs -/

theorem add_item_valid_eq (s : Inventory) (item : String) (q : Int)
    (logs : List String) (now : String) (hi : item ≠ "") (hq : 0 ≤ q) :
    add_item s (.str item) (.int q) logs now =
      ⟨⟨dictSet s.stock_data item (dictGet s.stock_data item + q)⟩, [],
        logs ++ [now ++ ": Added " ++ toString q ++ " of " ++ item]⟩ := by
  have h1 : valid_item (.str item) = true := by simp [valid_item, hi]
  have h2 : valid_qty (.int q) = true := by simp [valid_qty, hq]
  simp [add_item, h1, h2]

theorem remove_item_valid_present (s : Inventory) (item : String) (q : Int)
    (hi : item ≠ "") (hq : 0 ≤ q) (hpres : dictHas s.stock_data item = true) :
    remove_item s (.str item) (.int q) =
      if dictGet s.stock_data item - q ≤ 0 then
        ⟨⟨dictDel (dictSet s.stock_data item (dictGet s.stock_data item - q))
            item⟩, []⟩
      else
        ⟨⟨dictSet s.stock_data item (dictGet s.stock_data item - q)⟩, []⟩ := by
  have h1 : valid_item (.str item) = true := by simp [valid_item, hi]
  have h2 : valid_qty (.int q) = true := by simp [valid_qty, hq]
  simp only [remove_item, h1, h2]
  rw [dictGet_dictSet_self]
  simp [hpres]

theorem inv_remove_item (s : Inventory) (h : Inv s) (iv qv : PyVal) :
    Inv (remove_item s iv qv).inv := by
  cases hiv : valid_item iv with
  | false => simpa [remove_item, hiv] using h
  | true =>
    cases hqv : valid_qty qv with
    | false => simpa [remove_item, hiv, hqv] using h
    | true =>
      cases iv with
      | int n => simp [valid_item] at hiv
      | none => simp [valid_item] at hiv
      | str it =>
        cases qv with
        | str t => simp [valid_qty] at hqv
        | none => simp [valid_qty] at hqv
        | int q =>
          cases hpres : dictHas s.stock_data it with
          | false => simpa [remove_item, hiv, hqv, hpres] using h
          | true =>
            have hi : it ≠ "" := by
              intro he; rw [he] at hiv; simp [valid_item] at hiv
            have hq : (0 : Int) ≤ q := by simpa [valid_qty] using hqv
            rw [remove_item_valid_present s it q hi hq hpres]
            by_cases hle : dictGet s.stock_data it - q ≤ 0
            · rw [if_pos hle]
              intro p hp
              obtain ⟨hmem, hne⟩ := mem_dictDel _ it p hp
              rcases mem_dictSet _ it _ p hmem with hkv | hold
              · exact absurd (congrArg Prod.fst hkv) hne
              · exact h p hold
            · rw [if_neg hle]
              intro p hp
              rcases mem_dictSet _ it _ p hp with hkv | hold
              · rw [hkv]; simpa using not_le.mp hle
              · exact h p hold

theorem low_items_foldl (d : List (String × Int)) (T : Int)
    (acc : List String) :
    d.foldl (fun low_stock_items p =>
        if p.2 < T then low_stock_items ++ [p.1] else low_stock_items) acc
      = acc ++ (d.filter (fun p => p.2 < T)).map Prod.fst := by
  induction d generalizing acc with
  | nil => simp
  | cons a d ih =>
    by_cases h : a.2 < T
    · simp [List.foldl, List.filter_cons, h, ih]
    · simp [List.foldl, List.filter_cons, h, ih]

/-! ### The claims -/

/-- Claim C1: for every prior store state and valid input (non-empty item,
integer qty ≥ 0), `add_item` increases `get_qty item` by exactly `qty`
(and the entry exists afterwards, so an absent item is created at `qty`). -/
theorem c1_add_increases_qty (s : Inventory) (item : String) (q : Int)
    (logs : List String) (now : String) (hi : item ≠ "") (hq : 0 ≤ q) :
    get_qty (add_item s (.str item) (.int q) logs now).inv item
        = get_qty s item + q
      ∧ dictHas (add_item s (.str item) (.int q) logs now).inv.stock_data item
        = true := by
  rw [add_item_valid_eq s item q logs now hi hq]
  exact ⟨dictGet_dictSet_self _ _ _, dictHas_dictSet_self _ _ _⟩

/-- Witness for C1: adding 4 to an inventory holding 3 apples gives 7. -/
theorem c1_witness :
    get_qty (add_item ⟨[("apple", 3)]⟩ (.str "apple") (.int 4) [] "t").inv
        "apple"
      = get_qty (⟨[("apple", 3)]⟩ : Inventory) "apple" + 4 :=
  (c1_add_increases_qty ⟨[("apple", 3)]⟩ "apple" 4 [] "t" (by decide)
    (by decide)).1

/-- Claim C2 fails: `add_item` with `qty = 0` on an absent item creates an
entry whose value is 0, which the invariant forbids and which is retained
in the mapping. -/
theorem c2_counterexample :
    (add_item ⟨[]⟩ (.str "x") (.int 0) [] "t").inv.stock_data = [("x", 0)]
      ∧ ¬ Inv (add_item ⟨[]⟩ (.str "x") (.int 0) [] "t").inv := by
  constructor
  · decide
  · decide

/-- Claim C2 amended: from a state satisfying the invariant, `remove_item`
preserves it for all inputs and `save_data` leaves the mapping unchanged;
`add_item` preserves it when `qty > 0`, when `qty = 0` with the item
already present, and when validation fails (no mutation) — but not when
`qty = 0` and the item is absent; `load_data` installs unvalidated file
content. -/
theorem c2_amended_invariant (s : Inventory) (h : Inv s) :
    (∀ item q logs now, 0 < q →
        Inv (add_item s (.str item) (.int q) logs now).inv)
    ∧ (∀ item logs now, dictHas s.stock_data item = true →
        Inv (add_item s (.str item) (.int 0) logs now).inv)
    ∧ (∀ iv qv logs now, (valid_item iv && valid_qty qv) = false →
        (add_item s iv qv logs now).inv = s)
    ∧ (∀ iv qv, Inv (remove_item s iv qv).inv)
    ∧ (∀ fs file ok err, (save_data fs s file ok err).inv = s) := by
  refine ⟨?_, ?_, ?_, fun iv qv => inv_remove_item s h iv qv, ?_⟩
  · intro item q logs now hqpos
    by_cases hi : item = ""
    · simpa [add_item, valid_item, hi] using h
    · rw [add_item_valid_eq s item q logs now hi (le_of_lt hqpos)]
      intro p hp
      rcases mem_dictSet _ item _ p hp with hkv | hold
      · rw [hkv]
        have := dictGet_nonneg_of_pos s.stock_data item h
        simpa using add_pos_of_nonneg_of_pos this hqpos
      · exact h p hold
  · intro item logs now hpres
    by_cases hi : item = ""
    · simpa [add_item, valid_item, hi] using h
    · rw [add_item_valid_eq s item 0 logs now hi (le_refl 0)]
      intro p hp
      rcases mem_dictSet _ item _ p hp with hkv | hold
      · rw [hkv]
        simpa using dictGet_pos_of_has s.stock_data item h hpres
      · exact h p hold
  · intro iv qv logs now hinvalid
    cases hiv : valid_item iv with
    | false => simp [add_item, hiv]
    | true =>
      have hqv : valid_qty qv = false := by simpa [hiv] using hinvalid
      simp [add_item, hiv, hqv]
  · intro fs file ok err
    cases ok <;> rfl

/-- Witness for C2 (amended): a concrete invariant-satisfying state stays
invariant-satisfying after a positive add. -/
theorem c2_amended_witness :
    Inv (add_item ⟨[("a", 2)]⟩ (.str "b") (.int 1) [] "t").inv :=
  (c2_amended_invariant ⟨[("a", 2)]⟩ (by decide)).1 "b" 1 [] "t" (by decide)

/-- Claim C3: `save_data` immediately followed by `load_data` on the same
path (write succeeding, no external modification) restores the identical
item-to-quantity mapping, with nothing on the error channel. -/
theorem c3_save_load_roundtrip (fs : FS) (s : Inventory) (file err : String) :
    (load_data (save_data fs s file true err).fs
        (save_data fs s file true err).inv file).1.stock_data = s.stock_data
      ∧ (load_data (save_data fs s file true err).fs
          (save_data fs s file true err).inv file).2 = [] := by
  constructor <;> simp [save_data, load_data, fsWrite]

/-- Claim C4: removing a valid item that is absent from the mapping reports
the "not in stock" error and leaves the state completely unchanged. -/
theorem c4_remove_absent (s : Inventory) (item : String) (q : Int)
    (hi : item ≠ "") (hq : 0 ≤ q)
    (habs : dictHas s.stock_data item = false) :
    remove_item s (.str item) (.int q) =
      ⟨s, [remove_not_in_stock_msg item]⟩ := by
  have h1 : valid_item (.str item) = true := by simp [valid_item, hi]
  have h2 : valid_qty (.int q) = true := by simp [valid_qty, hq]
  simp [remove_item, h1, h2, habs]

/-- Witness for C4: removing a never-added item from a concrete state. -/
theorem c4_witness :
    remove_item ⟨[("a", 5)]⟩ (.str "orange") (.int 1) =
      ⟨⟨[("a", 5)]⟩, [remove_not_in_stock_msg "orange"]⟩ :=
  c4_remove_absent ⟨[("a", 5)]⟩ "orange" 1 (by decide) (by decide) (by decide)

/-- Claim C5: removing a quantity that brings a present item's stock to
≤ 0 deletes the entry entirely: `get_qty` then returns 0 and the item is
absent from the entries that `print_data` reports. -/
theorem c5_remove_deletes_entry (s : Inventory) (item : String) (q : Int)
    (hi : item ≠ "") (hq : 0 ≤ q)
    (hpres : dictHas s.stock_data item = true)
    (hle : get_qty s item - q ≤ 0) :
    get_qty (remove_item s (.str item) (.int q)).inv item = 0
      ∧ item ∉
        (remove_item s (.str item) (.int q)).inv.stock_data.map Prod.fst := by
  have hle' : dictGet s.stock_data item - q ≤ 0 := hle
  rw [remove_item_valid_present s item q hi hq hpres, if_pos hle']
  constructor
  · exact dictGet_dictDel_self _ _
  · intro hmem
    obtain ⟨p, hp, hfst⟩ := List.mem_map.mp hmem
    exact (mem_dictDel _ item p hp).2 hfst

/-- Witness for C5: removing 7 from 5 apples deletes the apple entry. -/
theorem c5_witness :
    get_qty (remove_item ⟨[("apple", 5), ("b", 9)]⟩ (.str "apple")
        (.int 7)).inv "apple" = 0 :=
  (c5_remove_deletes_entry ⟨[("apple", 5), ("b", 9)]⟩ "apple" 7 (by decide)
    (by decide) (by decide) (by decide)).1

/-- Claim C6: `check_low_items T` is exactly the items with quantity
strictly below `T`, in the insertion order of the mapping; with all
quantities ≥ 0 the threshold 0 yields the empty list, and a threshold
above every quantity yields all items. -/
theorem c6_check_low_items (s : Inventory) (T : Int) :
    check_low_items s T
        = (s.stock_data.filter (fun p => p.2 < T)).map Prod.fst
      ∧ ((∀ p ∈ s.stock_data, 0 ≤ p.2) → check_low_items s 0 = [])
      ∧ ((∀ p ∈ s.stock_data, p.2 < T) →
          check_low_items s T = s.stock_data.map Prod.fst) := by
  refine ⟨by simpa using low_items_foldl s.stock_data T [], ?_, ?_⟩
  · intro hnn
    have : s.stock_data.filter (fun p => p.2 < (0 : Int)) = [] := by
      rw [List.filter_eq_nil_iff]
      intro p hp
      simpa using hnn p hp
    simpa [check_low_items, low_items_foldl] using congrArg
      (List.map Prod.fst) this
  · intro hall
    have : s.stock_data.filter (fun p => p.2 < T) = s.stock_data := by
      rw [List.filter_eq_self]
      intro p hp
      simpa using hall p hp
    simpa [check_low_items, low_items_foldl] using congrArg
      (List.map Prod.fst) this

/-- Witness for C6: the two threshold extremes on a concrete state. -/
theorem c6_witness :
    check_low_items ⟨[("apple", 7), ("banana", 15)]⟩ 0 = []
      ∧ check_low_items ⟨[("apple", 7), ("banana", 15)]⟩ 20
        = ["apple", "banana"] :=
  ⟨(c6_check_low_items ⟨[("apple", 7), ("banana", 15)]⟩ 0).2.1 (by decide),
    (c6_check_low_items ⟨[("apple", 7), ("banana", 15)]⟩ 20).2.2 (by decide)⟩

/-- Claim C7: with an invalid item (empty or non-string) or an invalid
quantity (negative or non-integer), `add_item` and `remove_item` report
exactly one validation error, mutate nothing, and abort (the log is not
written either). -/
theorem c7_validation_rejects (s : Inventory) (iv qv : PyVal)
    (logs : List String) (now : String)
    (h : ¬(valid_item iv = true ∧ valid_qty qv = true)) :
    (add_item s iv qv logs now).inv = s
      ∧ (add_item s iv qv logs now).logs = logs
      ∧ (add_item s iv qv logs now).stderr
          = [if valid_item iv = false then invalid_item_msg iv
             else invalid_qty_msg qv]
      ∧ (remove_item s iv qv).inv = s
      ∧ (remove_item s iv qv).stderr
          = [if valid_item iv = false then invalid_item_msg iv
             else invalid_qty_msg qv] := by
  cases hiv : valid_item iv with
  | false => simp [add_item, remove_item, hiv]
  | true =>
    cases hqv : valid_qty qv with
    | false => simp [add_item, remove_item, hiv, hqv]
    | true => exact absurd ⟨hiv, hqv⟩ h

/-- Witness for C7: the driver's `add_item(123, 10)` call is rejected with
the invalid-item message and changes nothing. -/
theorem c7_witness :
    (add_item ⟨[("a", 1)]⟩ (.int 123) (.int 10) [] "t").inv = ⟨[("a", 1)]⟩
      ∧ (add_item ⟨[("a", 1)]⟩ (.int 123) (.int 10) [] "t").stderr
          = [invalid_item_msg (.int 123)] := by
  have h := c7_validation_rejects ⟨[("a", 1)]⟩ (.int 123) (.int 10) [] "t"
    (by decide)
  exact ⟨h.1, h.2.2.1.trans (by decide)⟩

/-- Claim C8: `load_data` of a missing file reports the Warning-prefixed
message and resets the mapping to empty; undecodable content reports the
Error-prefixed message and resets to empty; the prior state is discarded
without any merge. -/
theorem c8_load_failure_resets (fs : FS) (s : Inventory) (file : String) :
    (fs file = Option.none →
        load_data fs s file = (⟨[]⟩, [file_not_found_msg file])
          ∧ ∃ rest, file_not_found_msg file = "Warning: " ++ rest)
      ∧ (fs file = some .invalid →
        load_data fs s file = (⟨[]⟩, [decode_error_msg file])
          ∧ ∃ rest, decode_error_msg file = "Error: " ++ rest) := by
  constructor
  · intro h
    exact ⟨by unfold load_data; rw [h], ⟨_, rfl⟩⟩
  · intro h
    exact ⟨by unfold load_data; rw [h], ⟨_, rfl⟩⟩

/-- Witness for C8: loading a missing path from a non-empty state empties
the mapping and reports the warning. -/
theorem c8_witness :
    load_data (fun _ => Option.none) ⟨[("a", 1)]⟩ "missing.json"
      = (⟨[]⟩, [file_not_found_msg "missing.json"]) :=
  ((c8_load_failure_resets (fun _ => Option.none) ⟨[("a", 1)]⟩
    "missing.json").1 rfl).1

/-- Claim C9 fails on the message format: a failed save is reported and the
mapping is untouched, but the message begins `Error saving data to`, not
`Warning:`. -/
theorem c9_counterexample :
    (save_data (fun _ => Option.none) ⟨[("a", 1)]⟩ "f.json" false
        "disk full").stderr = [save_error_msg "f.json" "disk full"]
      ∧ (save_error_msg "f.json" "disk full").data.take 8
        ≠ "Warning:".data := by
  exact ⟨by decide, by decide⟩

/-- Claim C9 amended: any I/O failure during `save_data` is reported on the
error channel with a message prefixed `Error saving data to` (not
`Warning:`), no exception propagates, and neither the in-memory mapping
nor the file system changes. -/
theorem c9_amended_save_failure (fs : FS) (s : Inventory) (file err : String) :
    (save_data fs s file false err).inv = s
      ∧ (save_data fs s file false err).fs = fs
      ∧ (save_data fs s file false err).stderr = [save_error_msg file err]
      ∧ ∃ rest, save_error_msg file err = "Error saving data to " ++ rest :=
  ⟨rfl, rfl, rfl, ⟨_, rfl⟩⟩

/-- Claim C10: a successful `load_data` installs exactly the decoded
object, with no validation or filtering; zero and negative values are
retained, so `get_qty` can afterwards return a negative number. -/
theorem c10_load_no_validation (fs : FS) (s : Inventory) (file : String)
    (m : List (String × Int)) (h : fs file = some (.valid m)) :
    (load_data fs s file).1.stock_data = m
      ∧ (load_data fs s file).2 = []
      ∧ get_qty (load_data (fun _ => some (.valid [("a", -5), ("b", 0)])) s
          "inventory.json").1 "a" = -5
      ∧ dictHas (load_data (fun _ => some (.valid [("a", -5), ("b", 0)])) s
          "inventory.json").1.stock_data "b" = true := by
  refine ⟨?_, ?_, rfl, rfl⟩
  · unfold load_data; rw [h]
  · unfold load_data; rw [h]

/-- Witness for C10: loading a concrete file content replaces a non-empty
state by exactly that content. -/
theorem c10_witness :
    (load_data (fun _ => some (.valid [("x", 2)])) ⟨[("old", 1)]⟩
        "inventory.json").1.stock_data = [("x", 2)] :=
  (c10_load_no_validation (fun _ => some (.valid [("x", 2)])) ⟨[("old", 1)]⟩
    "inventory.json" [("x", 2)] rfl).1

end InventorySystem
